import Mathlib

/-!
Verification of the `dvc studio` command group (`src/dvc/commands/studio.py`):
the device-authorization login orchestrator, the logout command and the token
command, together with the credential store accesses they perform.

The Python code is shallowly embedded as pure Lean functions.  External
collaborators (the authorization service client `dvc_studio_client.auth`, the
platform browser, the random-name generator and the environment) are passed in
as an `Oracles` record of pure functions; each command returns a `RunResult`
describing its exit code, the final store state and the lines written to
stdout/stderr.
-/

namespace DvcStudio

/-- Python truthiness of an optional string value, as used by
`if not access_token`, `if not get_in(conf, ["studio", "token"])` and
`if not token`: `None` and the empty string are falsy. -/
def pyTruthy : Option String → Bool
  | none => false
  | some s => !s.isEmpty

/-- Python `a or b` where `a` is an optional string and `b` a string:
`a or b` yields `b` when `a` is `None` or empty, else the value of `a`.
Used by `self.args.name or gen_random_name()`,
`self.args.hostname or os.environ.get(DVC_STUDIO_URL) or STUDIO_URL` and
`self.args.scopes or DEFAULT_SCOPES`. -/
def pyOrStr : Option String → String → String
  | none, b => b
  | some s, b => if s.isEmpty then b else s

/-- `DEFAULT_SCOPES` from `src/dvc/commands/studio.py`. -/
def DEFAULT_SCOPES : String := "live,dvc_experiment,view_url,dql,download_model"

/-- `AVAILABLE_SCOPES` from `src/dvc/commands/studio.py`. -/
def AVAILABLE_SCOPES : List String :=
  ["live", "dvc_experiment", "view_url", "dql", "download_model"]

/-- Modelled from the spec: the built-in default Studio hostname
(`dvc.utils.studio.STUDIO_URL`, whose defining module is not under `src/`;
the spec only requires it to be the final, built-in fallback). -/
def STUDIO_URL : String := "https://studio.datachain.ai"

/-- Modelled from the spec: the Scoped Config Store's `"global"` scope,
restricted to the `studio` namespace the commands touch — the optional string
fields `studio.token` and `studio.url`.  `none` models an absent key. -/
structure Conf where
  token : Option String
  url : Option String
deriving Repr, DecidableEq

/-- The parsed CLI arguments of `dvc studio login` (argparse defaults:
`None` for the three string options, `False` for `--use-device-code`). -/
structure LoginArgs where
  name : Option String
  hostname : Option String
  scopes : Option String
  use_device_code : Bool
deriving Repr, DecidableEq

/-- The response dict of `start_device_login` (collaborator contract:
`{verification_uri, user_code, device_code, token_uri}`). -/
structure StartResponse where
  verification_uri : String
  user_code : String
  device_code : String
  token_uri : String
deriving Repr, DecidableEq

/-- The keyword arguments `start_device_login` is called with. -/
structure StartCall where
  client_name : String
  base_url : String
  token_name : String
  scopes : List String
deriving Repr, DecidableEq

/-- The external collaborators, as pure oracles:
`start_device_login` (raising `ValueError` is modelled as `.error`),
`webbrowser.open` (returns whether a browser was launched),
`check_token_authorization` (takes `uri` and `device_code`; `none` or an
empty string model an absent/expired token), `gen_random_name()` and
`os.environ.get(DVC_STUDIO_URL)`. -/
structure Oracles where
  start_device_login : StartCall → Except String StartResponse
  webbrowser_open : String → Bool
  check_token_authorization : String → String → Option String
  gen_random_name : String
  env_DVC_STUDIO_URL : Option String

/-- What `CmdStudioLogin.initiate_authorization` produced: its return value
`(device_code, token_uri)`, together with the observable effects — the
arguments passed to `start_device_login`, the lines written via `ui.write`,
the url passed to `webbrowser.open` (if it was called) and its result. -/
structure InitResult where
  device_code : String
  token_uri : String
  start_call : StartCall
  messages : List String
  browser_url : Option String
  opened : Bool
deriving Repr, DecidableEq

/-- The observable outcome of a command's `run()`: the returned exit code,
the final store state, the lines written via `ui.write` and via
`ui.error_write`. -/
structure RunResult where
  exit_code : Nat
  conf : Conf
  messages : List String
  errors : List String
deriving Repr, DecidableEq

/-- The message printed before attempting to launch the browser. -/
def browserOpenMsg (verification_uri : String) : String :=
  "A web browser has been opened at \n" ++ verification_uri ++
    ".\nPlease continue the login in the web browser.\n" ++
    "If no web browser is available or if the web browser fails to open,\n" ++
    "use device code flow with `dvc studio login --use-device-code`."

/-- The manual-entry message naming the verification URI. -/
def manualUriMsg (verification_uri : String) : String :=
  "Please open the following url in your browser.\n" ++ verification_uri

/-- The manual-entry message naming the user code. -/
def manualCodeMsg (user_code : String) : String :=
  "And enter the user code below " ++ user_code ++ " to authorize."

/-- The success message of `CmdStudioLogin.run`. -/
def successMsg (name : String) : String :=
  "Authentication successful. The token will be available as " ++ name ++
    " in Studio profile."

/-- The expired-device-code message of `CmdStudioLogin.run`
(`\x27` is the ASCII apostrophe). -/
def EXPIRED_MSG : String :=
  "failed to authenticate: This \x27device_code\x27 has expired.(expired_token)"

/-- The not-logged-in message of `CmdStudioLogout.run` and
`CmdStudioToken.run`. -/
def NOT_LOGGED_IN_MSG : String := "Not logged in to Studio."

/-- `name = self.args.name or gen_random_name()` (studio.py line 25). -/
def resolvedName (o : Oracles) (args : LoginArgs) : String :=
  pyOrStr args.name o.gen_random_name

/-- `hostname = self.args.hostname or os.environ.get(DVC_STUDIO_URL) or
STUDIO_URL` (studio.py line 26). -/
def resolvedHostname (o : Oracles) (args : LoginArgs) : String :=
  pyOrStr args.hostname (pyOrStr o.env_DVC_STUDIO_URL STUDIO_URL)

/-- Helper for `pySplitComma`: split a character list at every comma. -/
def splitCommaChars : List Char → List (List Char)
  | [] => [[]]
  | c :: cs =>
      let r := splitCommaChars cs
      if c = ',' then [] :: r
      else
        match r with
        | [] => [[c]]
        | h :: t => (c :: h) :: t

/-- Python `s.split(",")`: the pieces of `s` between its commas, in order
(`"" ↦ [""]`, `"a," ↦ ["a", ""]`), by structural recursion on the character
list. -/
def pySplitComma (s : String) : List String :=
  (splitCommaChars s.data).map String.mk

/-- The keyword arguments `CmdStudioLogin.initiate_authorization` passes to
`start_device_login` (studio.py lines 55-62): `client_name="dvc"`,
`base_url=hostname`, `token_name=name` and
`scopes=(self.args.scopes or DEFAULT_SCOPES).split(",")`. -/
def startCallOf (args : LoginArgs) (name hostname : String) : StartCall :=
  let scopes := pyOrStr args.scopes DEFAULT_SCOPES
  { client_name := "dvc", base_url := hostname, token_name := name,
    scopes := pySplitComma scopes }

/-- `CmdStudioLogin.initiate_authorization` (studio.py lines 47-85):
resolves the scopes, calls `start_device_login` (whose `ValueError`
propagates as `.error`), presents the instructions (browser launch unless
`--use-device-code`, manual fallback when not opened) and returns
`(device_code, token_uri)` plus the recorded effects. -/
def initiate_authorization (o : Oracles) (args : LoginArgs)
    (name hostname : String) : Except String InitResult :=
  match o.start_device_login (startCallOf args name hostname) with
  | .error e => .error e
  | .ok response =>
      let step :=
        if !args.use_device_code then
          let url := response.verification_uri ++ "?code=" ++ response.user_code
          (o.webbrowser_open url, [browserOpenMsg response.verification_uri],
            some url)
        else (false, ([] : List String), (none : Option String))
      let opened := step.1
      let msgs :=
        if !opened then
          step.2.1 ++
            [manualUriMsg response.verification_uri,
              manualCodeMsg response.user_code]
        else step.2.1
      .ok { device_code := response.device_code,
            token_uri := response.token_uri,
            start_call := startCallOf args name hostname, messages := msgs,
            browser_url := step.2.2, opened := opened }

/-- `CmdStudioLogin.save_config` (studio.py lines 87-90): within a
transactional edit of the `"global"` scope, sets `studio.token` and
`studio.url`. -/
def save_config (hostname token : String) (c : Conf) : Conf :=
  { c with token := some token, url := some hostname }

/-- `CmdStudioLogin.run` (studio.py lines 17-46). -/
def CmdStudioLogin_run (o : Oracles) (args : LoginArgs) (c : Conf) :
    RunResult :=
  let name := resolvedName o args
  let hostname := resolvedHostname o args
  match initiate_authorization o args name hostname with
  | .error e => { exit_code := 1, conf := c, messages := [], errors := [e] }
  | .ok ir =>
      let access_token := o.check_token_authorization ir.token_uri ir.device_code
      if !pyTruthy access_token then
        { exit_code := 1, conf := c,
          messages := ir.messages ++ [EXPIRED_MSG], errors := [] }
      else
        { exit_code := 0,
          conf := save_config hostname (access_token.getD "") c,
          messages := ir.messages ++ [successMsg name], errors := [] }

/-- The read performed by `CmdStudioToken.run`:
`get_in(self.config.read("global"), ["studio", "token"])`. -/
def readToken (c : Conf) : Option String := c.token

/-- The statement `del conf["studio"]["token"]` (studio.py line 101):
deleting a missing key raises `KeyError`, modelled as `none`. -/
def delToken (c : Conf) : Option Conf :=
  match c.token with
  | none => none
  | some _ => some { c with token := none }

/-- `CmdStudioLogout.run` (studio.py lines 93-104).  The `delToken`-failure
branch models the `KeyError` the `del` statement would raise; it is provably
unreachable (the guard ensures the key is present). -/
def CmdStudioLogout_run (c : Conf) : RunResult :=
  if !pyTruthy c.token then
    { exit_code := 1, conf := c, messages := [],
      errors := [NOT_LOGGED_IN_MSG] }
  else
    match delToken c with
    | some c2 =>
        { exit_code := 0, conf := c2,
          messages := ["Logged out from Studio"], errors := [] }
    | none =>
        { exit_code := 255, conf := c, messages := [],
          errors := ["KeyError: token"] }

/-- `CmdStudioToken.run` (studio.py lines 107-118): a read-only command. -/
def CmdStudioToken_run (c : Conf) : RunResult :=
  let token := readToken c
  if !pyTruthy token then
    { exit_code := 1, conf := c, messages := [],
      errors := [NOT_LOGGED_IN_MSG] }
  else
    { exit_code := 0, conf := c, messages := [token.getD ""], errors := [] }

/-- Concrete oracles whose `start_device_login` raises `ValueError`. -/
def oErr : Oracles :=
  { start_device_login := fun _ => .error "Bad response from server.",
    webbrowser_open := fun _ => false,
    check_token_authorization := fun _ _ => none,
    gen_random_name := "crimson-dust",
    env_DVC_STUDIO_URL := none }

/-- A concrete `start_device_login` response. -/
def respOk : StartResponse :=
  { verification_uri := "https://studio.example/auth/device-login",
    user_code := "A1B2C3", device_code := "dev-code-1",
    token_uri := "https://studio.example/api/device-login/token" }

/-- Concrete oracles for a fully successful login flow. -/
def oOk : Oracles :=
  { start_device_login := fun _ => .ok respOk,
    webbrowser_open := fun _ => true,
    check_token_authorization := fun _ _ => some "abc123",
    gen_random_name := "crimson-dust",
    env_DVC_STUDIO_URL := none }

/-- Concrete oracles where authorization completion returns no token. -/
def oExpired : Oracles :=
  { oOk with check_token_authorization := fun _ _ => none }

/-- Default `login` arguments: no option supplied. -/
def argsDefault : LoginArgs :=
  { name := none, hostname := none, scopes := none, use_device_code := false }

/-- An initially empty store. -/
def conf0 : Conf := { token := none, url := none }

/-- C1.  For every hostname and token, `save_config` followed by the token
read performed by the Token command returns exactly the token that was
saved. -/
theorem save_then_readToken (hostname token : String) (c : Conf) :
    readToken (save_config hostname token c) = some token := rfl

/-- C3.  Running the Logout command on a store whose global scope has no
`studio.token` fails with exit code 1 and the "Not logged in" message, and
leaves the store state completely unchanged. -/
theorem logout_empty_store (c : Conf) (h : c.token = none) :
    CmdStudioLogout_run c =
      { exit_code := 1, conf := c, messages := [],
        errors := [NOT_LOGGED_IN_MSG] } := by
  simp [CmdStudioLogout_run, pyTruthy, h]

/-- Witness for `logout_empty_store` at a concrete store. -/
theorem logout_empty_store_witness :
    CmdStudioLogout_run { token := none, url := some "https://studio.example" } =
      { exit_code := 1,
        conf := { token := none, url := some "https://studio.example" },
        messages := [], errors := [NOT_LOGGED_IN_MSG] } :=
  logout_empty_store _ rfl

/-- C4 counterexample.  A store in which `studio.token` is present (with the
empty string as value, as `save_config` would store after a login whose token
is `""`) on which Logout neither returns exit code 0 nor deletes the key:
the claim as stated fails for present-but-empty tokens. -/
theorem logout_present_token_cex :
    ¬ ((CmdStudioLogout_run
          { token := some "", url := some "https://studio.example" }).exit_code = 0
        ∧ (CmdStudioLogout_run
          { token := some "", url := some "https://studio.example" }).conf.token
            = none) := by
  decide

/-- C4 amended.  For every store state in which `studio.token` is present
with a non-empty value, Logout deletes `studio.token`, leaves `studio.url`
intact, returns exit code 0 and prints the logged-out message. -/
theorem logout_nonempty_token (c : Conf) (t : String) (h : c.token = some t)
    (hne : t ≠ "") :
    CmdStudioLogout_run c =
      { exit_code := 0, conf := { token := none, url := c.url },
        messages := ["Logged out from Studio"], errors := [] } := by
  have ht : t.isEmpty = false := by
    rcases hb : t.isEmpty with _ | _
    · rfl
    · exact absurd ((String.isEmpty_iff t).mp hb) hne
  simp [CmdStudioLogout_run, pyTruthy, h, ht, delToken]

/-- Witness for `logout_nonempty_token` at a concrete store. -/
theorem logout_nonempty_token_witness :
    CmdStudioLogout_run
        { token := some "abc123", url := some "https://studio.example" } =
      { exit_code := 0,
        conf := { token := none, url := some "https://studio.example" },
        messages := ["Logged out from Studio"], errors := [] } :=
  logout_nonempty_token _ "abc123" rfl (by decide)

/-- C5.  On every failing Login path (non-zero exit code: initiation error or
expired/absent token) the config store is left exactly as it was: nothing is
written until completion succeeds. -/
theorem login_failure_no_write (o : Oracles) (args : LoginArgs) (c : Conf)
    (h : (CmdStudioLogin_run o args c).exit_code ≠ 0) :
    (CmdStudioLogin_run o args c).conf = c := by
  rcases hinit : initiate_authorization o args (resolvedName o args)
      (resolvedHostname o args) with e | ir
  · simp [CmdStudioLogin_run, hinit]
  · rcases ht : pyTruthy (o.check_token_authorization ir.token_uri
        ir.device_code) with _ | _
    · simp [CmdStudioLogin_run, hinit, ht]
    · exact absurd (by simp [CmdStudioLogin_run, hinit, ht]) h

/-- Witness for `login_failure_no_write`: a login whose initiation fails
writes nothing. -/
theorem login_failure_no_write_witness :
    (CmdStudioLogin_run oErr argsDefault conf0).conf = conf0 :=
  login_failure_no_write oErr argsDefault conf0 (by decide)

/-- C9.  Both the Logout and the Token command treat a present-but-falsy
`studio.token` (the empty string) exactly like an absent one: exit code 1 and
the "Not logged in to Studio." error, identical to the behaviour on a store
without the key. -/
theorem falsy_token_treated_as_absent (u : Option String) :
    ((CmdStudioLogout_run { token := some "", url := u }).exit_code = 1
      ∧ (CmdStudioLogout_run { token := some "", url := u }).errors
          = [NOT_LOGGED_IN_MSG]
      ∧ (CmdStudioLogout_run { token := some "", url := u }).exit_code
          = (CmdStudioLogout_run { token := none, url := u }).exit_code
      ∧ (CmdStudioLogout_run { token := some "", url := u }).errors
          = (CmdStudioLogout_run { token := none, url := u }).errors)
    ∧ ((CmdStudioToken_run { token := some "", url := u }).exit_code = 1
      ∧ (CmdStudioToken_run { token := some "", url := u }).errors
          = [NOT_LOGGED_IN_MSG]
      ∧ (CmdStudioToken_run { token := some "", url := u }).exit_code
          = (CmdStudioToken_run { token := none, url := u }).exit_code
      ∧ (CmdStudioToken_run { token := some "", url := u }).errors
          = (CmdStudioToken_run { token := none, url := u }).errors) :=
  ⟨⟨rfl, rfl, rfl, rfl⟩, rfl, rfl, rfl, rfl⟩

/-- C10.  In Logout the deletion of `studio.token` is guarded by the
truthiness check, so it can never fail with a missing-key error: whenever the
guard passes the delete succeeds, and on no store state does Logout reach the
`KeyError` outcome. -/
theorem logout_delete_never_fails (c : Conf) :
    (pyTruthy c.token = true → (delToken c).isSome = true)
    ∧ (CmdStudioLogout_run c).errors ≠ ["KeyError: token"] := by
  constructor
  · intro h
    rcases hc : c.token with _ | t
    · rw [hc] at h; exact absurd h (by simp [pyTruthy])
    · simp [delToken, hc]
  · rcases hc : c.token with _ | t
    · simp [CmdStudioLogout_run, pyTruthy, hc, NOT_LOGGED_IN_MSG]
    · rcases ht : t.isEmpty with _ | _
      · simp [CmdStudioLogout_run, pyTruthy, hc, ht, delToken]
      · simp [CmdStudioLogout_run, pyTruthy, hc, ht, NOT_LOGGED_IN_MSG]

/-- Witness for `logout_delete_never_fails` at a concrete store with a
truthy token. -/
theorem logout_delete_never_fails_witness :
    (delToken { token := some "abc123", url := none }).isSome = true
    ∧ (CmdStudioLogout_run { token := some "abc123", url := none }).errors
        ≠ ["KeyError: token"] :=
  ⟨(logout_delete_never_fails { token := some "abc123", url := none }).1
      (by decide),
    (logout_delete_never_fails { token := some "abc123", url := none }).2⟩

/-- A non-empty string is not `isEmpty` (helper). -/
theorem isEmpty_eq_false (s : String) (h : s ≠ "") : s.isEmpty = false := by
  rcases hb : s.isEmpty with _ | _
  · rfl
  · exact absurd ((String.isEmpty_iff s).mp hb) h

/-- C2.  The Login command returns exit code 0 exactly when initiation
succeeds and `check_token_authorization` yields a truthy (non-empty) token,
in which case the credential is saved; it returns exit code 1 when initiation
raises, and exit code 1 with the explicit "expired" message when the token
obtained is empty/absent. -/
theorem login_exit_codes (o : Oracles) (args : LoginArgs) (c : Conf) :
    (∀ e, initiate_authorization o args (resolvedName o args)
          (resolvedHostname o args) = .error e →
        CmdStudioLogin_run o args c =
          { exit_code := 1, conf := c, messages := [], errors := [e] })
    ∧ (∀ ir, initiate_authorization o args (resolvedName o args)
          (resolvedHostname o args) = .ok ir →
        (pyTruthy (o.check_token_authorization ir.token_uri ir.device_code)
            = true →
          (CmdStudioLogin_run o args c).exit_code = 0
          ∧ (CmdStudioLogin_run o args c).conf =
              save_config (resolvedHostname o args)
                ((o.check_token_authorization ir.token_uri
                    ir.device_code).getD "") c)
        ∧ (pyTruthy (o.check_token_authorization ir.token_uri ir.device_code)
            = false →
          (CmdStudioLogin_run o args c).exit_code = 1
          ∧ EXPIRED_MSG ∈ (CmdStudioLogin_run o args c).messages)) := by
  constructor
  · intro e he
    simp [CmdStudioLogin_run, he]
  · intro ir hir
    constructor
    · intro ht
      constructor <;> simp [CmdStudioLogin_run, hir, ht]
    · intro ht
      constructor <;> simp [CmdStudioLogin_run, hir, ht]

/-- Witness for `login_exit_codes`: a login whose initiation raises exits
with code 1 and reports the error. -/
theorem login_exit_codes_witness :
    CmdStudioLogin_run oErr argsDefault conf0 =
      { exit_code := 1, conf := conf0, messages := [],
        errors := ["Bad response from server."] } :=
  (login_exit_codes oErr argsDefault conf0).1 "Bad response from server." rfl

/-- C8.  Login resolves the hostname with precedence explicit argument,
else environment override, else built-in default; and resolves the name as
the explicit argument, else the freshly generated name. -/
theorem login_resolution (o : Oracles) (args : LoginArgs) :
    (∀ h, args.hostname = some h → h ≠ "" → resolvedHostname o args = h)
    ∧ (args.hostname = none →
        (∀ e, o.env_DVC_STUDIO_URL = some e → e ≠ "" →
          resolvedHostname o args = e)
        ∧ (o.env_DVC_STUDIO_URL = none →
          resolvedHostname o args = STUDIO_URL))
    ∧ (∀ n, args.name = some n → n ≠ "" → resolvedName o args = n)
    ∧ (args.name = none → resolvedName o args = o.gen_random_name) := by
  refine ⟨?_, ?_, ?_, ?_⟩
  · intro h hh hne
    simp [resolvedHostname, pyOrStr, hh, isEmpty_eq_false h hne]
  · intro hh
    constructor
    · intro e he hne
      simp [resolvedHostname, pyOrStr, hh, he, isEmpty_eq_false e hne]
    · intro he
      simp [resolvedHostname, pyOrStr, hh, he]
  · intro n hn hne
    simp [resolvedName, pyOrStr, hn, isEmpty_eq_false n hne]
  · intro hn
    simp [resolvedName, pyOrStr, hn]

/-- Witness for `login_resolution` at concrete arguments: an explicit
hostname and name win; with nothing supplied and no environment override the
built-in default and the generated name are used. -/
theorem login_resolution_witness :
    resolvedHostname oOk
        { name := some "mytoken", hostname := some "https://custom.example",
          scopes := none, use_device_code := false } = "https://custom.example"
    ∧ resolvedName oOk
        { name := some "mytoken", hostname := some "https://custom.example",
          scopes := none, use_device_code := false } = "mytoken"
    ∧ resolvedHostname oOk argsDefault = STUDIO_URL
    ∧ resolvedName oOk argsDefault = oOk.gen_random_name :=
  ⟨(login_resolution oOk _).1 "https://custom.example" rfl (by decide),
    (login_resolution oOk _).2.2.1 "mytoken" rfl (by decide),
    ((login_resolution oOk argsDefault).2.1 rfl).2 rfl,
    (login_resolution oOk argsDefault).2.2.2 rfl⟩

/-- C7.  The scopes argument forwarded to `start_device_login` is exactly the
comma-split of the supplied scopes string (regardless of membership in
`AVAILABLE_SCOPES` — no validation), and the split of `DEFAULT_SCOPES` when
the argument is omitted. -/
theorem scopes_pass_through (o : Oracles) (args : LoginArgs)
    (name hostname : String) :
    (∀ ir, initiate_authorization o args name hostname = .ok ir →
        ir.start_call = startCallOf args name hostname)
    ∧ (∀ s, args.scopes = some s → s ≠ "" →
        (startCallOf args name hostname).scopes = pySplitComma s)
    ∧ (args.scopes = none →
        (startCallOf args name hostname).scopes = pySplitComma DEFAULT_SCOPES) := by
  refine ⟨?_, ?_, ?_⟩
  · intro ir hir
    unfold initiate_authorization at hir
    rcases hs : o.start_device_login (startCallOf args name hostname)
        with e | resp <;> rw [hs] at hir
    · exact absurd hir (by simp)
    · rw [Except.ok.injEq] at hir
      rw [← hir]
  · intro s hs hne
    simp [startCallOf, pyOrStr, hs, isEmpty_eq_false s hne]
  · intro hs
    simp [startCallOf, pyOrStr, hs]

/-- Witness for `scopes_pass_through`: the string `"live,view_url"` is
forwarded as the ordered list `["live", "view_url"]`, and a scope outside
`AVAILABLE_SCOPES` passes through unvalidated. -/
theorem scopes_pass_through_witness :
    (startCallOf
        { name := none, hostname := none,
          scopes := some "live,view_url", use_device_code := false }
        "n" "h").scopes = ["live", "view_url"]
    ∧ (startCallOf
        { name := none, hostname := none,
          scopes := some "live,bogus", use_device_code := false }
        "n" "h").scopes = ["live", "bogus"]
    ∧ "bogus" ∉ AVAILABLE_SCOPES :=
  ⟨((scopes_pass_through oOk _ "n" "h").2.1 "live,view_url" rfl
      (by decide)).trans (by decide),
    ((scopes_pass_through oOk _ "n" "h").2.1 "live,bogus" rfl
      (by decide)).trans (by decide),
    by decide⟩

/-- C6.  Whenever `start_device_login` succeeds, `initiate_authorization`
succeeds regardless of the browser result (browser-launch failure never
raises): with `--use-device-code` unset a browser launch is attempted at the
verification URI with the user code as query parameter and a continue-in-
browser message is shown; when the launch fails, or `--use-device-code` is
set, the verification URI and the user code are printed for manual entry. -/
theorem instruction_presenter (o : Oracles) (args : LoginArgs)
    (name hostname : String) (resp : StartResponse)
    (h : o.start_device_login (startCallOf args name hostname) = .ok resp) :
    ∃ ir, initiate_authorization o args name hostname = .ok ir
      ∧ (args.use_device_code = false →
          ir.browser_url
              = some (resp.verification_uri ++ "?code=" ++ resp.user_code)
          ∧ (ir.opened = true →
              browserOpenMsg resp.verification_uri ∈ ir.messages))
      ∧ (args.use_device_code = true ∨ ir.opened = false →
          manualUriMsg resp.verification_uri ∈ ir.messages
          ∧ manualCodeMsg resp.user_code ∈ ir.messages) := by
  rcases hd : args.use_device_code with _ | _
  · rcases hb : o.webbrowser_open
        (resp.verification_uri ++ "?code=" ++ resp.user_code) with _ | _
    · refine ⟨⟨resp.device_code, resp.token_uri,
          startCallOf args name hostname,
          [browserOpenMsg resp.verification_uri,
            manualUriMsg resp.verification_uri, manualCodeMsg resp.user_code],
          some (resp.verification_uri ++ "?code=" ++ resp.user_code),
          false⟩, ?_, ?_, ?_⟩
      · simp [initiate_authorization, h, hd, hb]
      · intro _
        exact ⟨rfl, fun hop => absurd hop (by simp)⟩
      · intro _
        exact ⟨by simp, by simp⟩
    · refine ⟨⟨resp.device_code, resp.token_uri,
          startCallOf args name hostname,
          [browserOpenMsg resp.verification_uri],
          some (resp.verification_uri ++ "?code=" ++ resp.user_code),
          true⟩, ?_, ?_, ?_⟩
      · simp [initiate_authorization, h, hd, hb]
      · intro _
        exact ⟨rfl, fun _ => by simp⟩
      · intro hor
        rcases hor with h1 | h2
        · exact absurd h1 (by simp)
        · exact absurd h2 (by simp)
  · refine ⟨⟨resp.device_code, resp.token_uri,
        startCallOf args name hostname,
        [manualUriMsg resp.verification_uri, manualCodeMsg resp.user_code],
        none, false⟩, ?_, ?_, ?_⟩
    · simp [initiate_authorization, h, hd]
    · intro h1
      exact absurd h1 (by simp)
    · intro _
      exact ⟨by simp, by simp⟩

/-- Witness for `instruction_presenter` on concrete oracles whose browser
launch succeeds. -/
theorem instruction_presenter_witness :
    ∃ ir, initiate_authorization oOk argsDefault "crimson-dust" STUDIO_URL
        = .ok ir
      ∧ (argsDefault.use_device_code = false →
          ir.browser_url
              = some (respOk.verification_uri ++ "?code=" ++ respOk.user_code)
          ∧ (ir.opened = true →
              browserOpenMsg respOk.verification_uri ∈ ir.messages))
      ∧ (argsDefault.use_device_code = true ∨ ir.opened = false →
          manualUriMsg respOk.verification_uri ∈ ir.messages
          ∧ manualCodeMsg respOk.user_code ∈ ir.messages) :=
  instruction_presenter oOk argsDefault "crimson-dust" STUDIO_URL respOk rfl

end DvcStudio
